import Mathlib

/-!
Verification of the bd_parser book-scraping pipeline.

Rust strings are modelled as `List Char`.  Each definition below embeds one
function of the source (module and line references in doc comments).  Source
string literals that contain apostrophes, braces or interpolated arguments are
reproduced with those characters elided, since only the presence and shape of
the messages matter to the properties proved here.
-/

/-- Converts a Lean string literal to the `List Char` representation used
throughout this development. -/
def str (s : String) : List Char := s.data

/-- Unicode white-space test matching Rust `char::is_whitespace`
(the White_Space property). -/
def isRustWhitespace (c : Char) : Bool :=
  let n := c.toNat
  (9 ≤ n && n ≤ 13) || n = 32 || n = 133 || n = 160 || n = 5760 ||
  (8192 ≤ n && n ≤ 8202) || n = 8232 || n = 8233 || n = 8239 || n = 8287 || n = 12288

/-- Embedding of Rust `str::trim`: drop white space from both ends. -/
def rustTrim (l : List Char) : List Char :=
  ((l.dropWhile isRustWhitespace).reverse.dropWhile isRustWhitespace).reverse

/-- Embedding of Rust `str::contains(needle)` for string needles:
some position of `hay` starts with `needle`. -/
def containsSub (hay needle : List Char) : Bool :=
  match hay with
  | [] => needle.isEmpty
  | _ :: rest => needle.isPrefixOf hay || containsSub rest needle

/-- Helper for the splitting functions: prepend a character to the first
piece of a split result. -/
def consHead (c : Char) : List (List Char) → List (List Char)
  | [] => [[c]]
  | t :: ts => (c :: t) :: ts

/-- Embedding of Rust `str::split([',', ';'])` (src/parse_traits.rs line 55):
split at every comma or semicolon, keeping empty pieces. -/
def splitCommaSemi : List Char → List (List Char)
  | [] => [[]]
  | c :: rest =>
    if c = ',' ∨ c = ';' then [] :: splitCommaSemi rest
    else consHead c (splitCommaSemi rest)

/-- Anyhow-style errors: a chain of context messages, innermost last. -/
abbrev AErr := List (List Char)

/-- Embedding of anyhow `Result::context(msg)`: push a context frame onto an
error, leave successes unchanged. -/
def withCtx {α : Type} (msg : List Char) : Except AErr α → Except AErr α
  | .error e => .error (msg :: e)
  | .ok v => .ok v

namespace Isbn

/-- The cleaning step of `Isbn::new` (src/parse_traits.rs line 26):
`s.trim().replace(chars - and space, empty)`. -/
def clean (s : List Char) : List Char :=
  (rustTrim s).filter (fun c => ¬(c = '-' ∨ c = ' '))

/-- Embedding of `Isbn::new` (src/parse_traits.rs lines 25-38).  Validates the
cleaned text and stores the ORIGINAL string on success.  The error message
elides the interpolated digit count and input. -/
def new (s : List Char) : Except AErr (List Char) :=
  let cleaned := clean s
  let digitCount := (cleaned.filter Char.isDigit).length
  if (10 ≤ digitCount ∧ digitCount ≤ 13) ∧ cleaned.all Char.isDigit then
    .ok s
  else
    .error [str "Invalid ISBN format. Expected 10-13 digits"]

/-- Embedding of `Isbn::is_digit_13` (src/parse_traits.rs lines 80-82). -/
def isDigit13 (isbn : List Char) : Bool :=
  (isbn.filter Char.isDigit).length == 13

/-- Embedding of `Isbn::parse` (src/parse_traits.rs lines 53-77): tokenize on
comma/semicolon, trim, drop empties, prefer the first 13-digit token,
otherwise take the last token. -/
def parse (raw : List Char) : Except AErr (List Char) :=
  let tokens := ((splitCommaSemi raw).map rustTrim).filter (fun s => !s.isEmpty)
  if tokens.isEmpty then .error [str "No ISBN detected in input"]
  else
    match tokens.find? isDigit13 with
    | some isbn13 => .ok isbn13
    | none =>
      match tokens.getLast? with
      | some t => .ok t
      | none => .error [str "Failed to extract ISBN from tokens"]

/-- Embedding of `TryFrom<String> for Isbn` (src/parse_traits.rs lines 85-92):
`Isbn::new(Isbn::parse(s)?)`. -/
def tryFrom (s : List Char) : Except AErr (List Char) :=
  match parse s with
  | .ok t => new t
  | .error e => .error e

end Isbn


/-- Embedding of `Sites` (src/parse_traits.rs lines 162-167). -/
inductive Sites where
  | labirint
  | igraSlov
  deriving DecidableEq

/-- Embedding of `Display for Sites` (src/parse_traits.rs lines 169-176). -/
def Sites.toChars : Sites → List Char
  | .labirint => str "labirint"
  | .igraSlov => str "igra_slov"

/-- Embedding of `Book` (src/parse_traits.rs lines 180-191), with value types
unwrapped to their underlying strings. -/
structure BookOut where
  authors : List (List Char)
  isbn : List Char
  source : List Char
  title : List Char
  site : Sites

/-- Embedding of `Vec::join(separator semicolon-space)` as used on the authors
column in `write_csv_record` (src/csv_save.rs lines 27-32). -/
def joinAuthors : List (List Char) → List Char
  | [] => []
  | [a] => a
  | a :: b :: rest => a ++ ';' :: ' ' :: joinAuthors (b :: rest)

/-- Embedding of `str::split` with the two-character separator
semicolon-space, used by the spec round-trip property to re-split the
authors column. -/
def splitSemiSpace : List Char → List (List Char)
  | [] => [[]]
  | [c] => [[c]]
  | c :: d :: rest =>
    if c = ';' ∧ d = ' ' then [] :: splitSemiSpace rest
    else consHead c (splitSemiSpace (d :: rest))

/-- Embedding of `Book::write_csv_record` (src/csv_save.rs lines 26-41): the
row written for one successful record, columns site, source, isbn, title,
authors. -/
def writeCsvRecord (b : BookOut) : List (List Char) :=
  [b.site.toChars, b.source, b.isbn, b.title, joinAuthors b.authors]


/-- A mocked HTTP response: status code, optional parsed Retry-After header
value, and body text. -/
structure HttpResp where
  code : Nat
  retryAfter : Option Nat
  body : List Char

/-- Outcome of one network attempt in the mocked transport: either a response
or a connection-level error. -/
inductive AttemptOut where
  | resp (r : HttpResp)
  | netErr (msg : List Char)

/-- Failure modes of `LabirintParser::fetch` (src/labirint.rs lines 32-102).
Message payloads are carried structurally; interpolated text is elided. -/
inductive FetchErr where
  | notBookUrl
  | httpStatus (code : Nat)
  | httpStatusRetries (code : Nat)
  | netErrRetries (msg : List Char)
  | unknown
  deriving DecidableEq

/-- Embedding of `StatusCode::is_success`: 2xx. -/
def is2xx (c : Nat) : Bool := 200 ≤ c && c < 300

/-- Retryable classification in src/labirint.rs line 66:
status 429 or any 5xx (`is_server_error`). -/
def retryableStatus (c : Nat) : Bool := c == 429 || (500 ≤ c && c < 600)

/-- Embedding of `MAX_RETRIES` (src/labirint.rs line 21). -/
def MAX_RETRIES : Nat := 1

/-- Embedding of the retry loop of `LabirintParser::fetch`
(src/labirint.rs lines 53-102).  `respAt n` is the mocked transport outcome of
the request made on attempt `n`; the returned list is the sequence of backoff
waits (in seconds) actually slept.  `fuel` starts at `maxR + 1`, matching the
`for attempt in 0..=MAX_RETRIES` loop; the fuel-0 case is the post-loop
most-informative-error selection (lines 96-102). -/
def fetchAux (respAt : Nat → AttemptOut) (maxR : Nat) :
    Nat → Nat → Option Nat → Option (List Char) → List Nat →
    Except FetchErr (List Char) × List Nat
  | 0, _, lastStatus, lastErr, acc =>
    match lastStatus, lastErr with
    | some c, _ => (.error (.httpStatusRetries c), acc.reverse)
    | none, some m => (.error (.netErrRetries m), acc.reverse)
    | none, none => (.error .unknown, acc.reverse)
  | fuel + 1, attempt, lastStatus, lastErr, acc =>
    match respAt attempt with
    | .resp r =>
      if is2xx r.code then (.ok r.body, acc.reverse)
      else if retryableStatus r.code ∧ attempt < maxR then
        fetchAux respAt maxR fuel (attempt + 1) (some r.code) lastErr
          (r.retryAfter.getD (min (2 ^ attempt) 8) :: acc)
      else (.error (.httpStatus r.code), acc.reverse)
    | .netErr m =>
      if attempt < maxR then
        fetchAux respAt maxR fuel (attempt + 1) lastStatus (some m)
          (min (2 ^ attempt) 8 :: acc)
      else fetchAux respAt maxR fuel (attempt + 1) lastStatus (some m) acc

/-- Embedding of `LabirintParser::fetch` (src/labirint.rs lines 32-102): the
guard rejecting URLs without the substring books runs before any network
attempt; otherwise the retry loop starts at attempt 0. -/
def labirintFetch (url : List Char) (respAt : Nat → AttemptOut) (maxR : Nat) :
    Except FetchErr (List Char) × List Nat :=
  if !containsSub url (str "books") then (.error .notBookUrl, [])
  else fetchAux respAt maxR (maxR + 1) 0 none none []



/-- One `BookParser` capability instance (src/parse_traits.rs lines 197-233)
with its fetch outcome fixed: `fetch` is the result of the single page fetch
for the URL under consideration, and the three field parsers act on the
fetched context. -/
structure Cap (Ctx : Type) where
  fetch : Except AErr Ctx
  parseAuthors : Ctx → Except AErr (List (List Char))
  parseTitle : Ctx → Except AErr (List Char)
  parseIsbn : Ctx → Except AErr (List Char)

/-- Embedding of the default `BookParser::parse_book`
(src/parse_traits.rs lines 240-252): fetch, then authors, title, isbn, each
early-returning its error unchanged via the question-mark operator. -/
def parseBookDefault {Ctx : Type} (cap : Cap Ctx) (url : List Char) (site : Sites) :
    Except AErr BookOut :=
  match cap.fetch with
  | .error e => .error e
  | .ok ctx =>
    match cap.parseAuthors ctx with
    | .error e => .error e
    | .ok authors =>
      match cap.parseTitle ctx with
      | .error e => .error e
      | .ok title =>
        match cap.parseIsbn ctx with
        | .error e => .error e
        | .ok isbn => .ok ⟨authors, isbn, url, title, site⟩

/-- Embedding of `LabirintParser::parse_book` (src/labirint.rs lines 158-177):
same sequence as the default, but each step wraps its error in a context
message naming the failing stage. -/
def parseBookLabirintG {Ctx : Type} (cap : Cap Ctx) (url : List Char) (site : Sites) :
    Except AErr BookOut :=
  match withCtx (str "Failed to fetch page") cap.fetch with
  | .error e => .error e
  | .ok ctx =>
    match withCtx (str "Failed to parse authors") (cap.parseAuthors ctx) with
    | .error e => .error e
    | .ok authors =>
      match withCtx (str "Failed to parse title") (cap.parseTitle ctx) with
      | .error e => .error e
      | .ok title =>
        match withCtx (str "Failed to parse ISBN") (cap.parseIsbn ctx) with
        | .error e => .error e
        | .ok isbn => .ok ⟨authors, isbn, url, title, site⟩

/-- A fetched page reduced to the text content of the nodes each CSS selector
matches, in document order: the `scraper::Html` context of one parser. -/
structure PageCtx where
  authorNodes : List (List Char)
  isbnNodes : List (List Char)
  titleNodes : List (List Char)

/-- Embedding of `Author::new` and `Title::new`
(src/parse_traits.rs lines 106-108 and 136-138): trim surrounding
white space. -/
def normNew (s : List Char) : List Char := rustTrim s

/-- Embedding of `LabirintParser::parse_authors` (src/labirint.rs lines
106-119): every selector hit becomes one `Author`; never an error. -/
def labParseAuthors (ctx : PageCtx) : Except AErr (List (List Char)) :=
  .ok (ctx.authorNodes.map normNew)

/-- Embedding of `LabirintParser::parse_title` (src/labirint.rs lines
141-155): concatenate all selector hits and trim; never an error. -/
def labParseTitle (ctx : PageCtx) : Except AErr (List Char) :=
  .ok (normNew ctx.titleNodes.flatten)

/-- Embedding of `LabirintParser::parse_isbn` (src/labirint.rs lines 122-138):
last selector hit, non-breaking spaces removed, validated via
`Isbn::try_from` with a context message carrying the URL. -/
def labParseIsbn (ctx : PageCtx) (url : List Char) : Except AErr (List Char) :=
  match ctx.isbnNodes.getLast? with
  | some t =>
    withCtx (str "Failed to parse ISBN from page: " ++ url)
      (Isbn.tryFrom (t.filter (fun c => c ≠ '\u00A0')))
  | none => .error [str "ISBN element not found on page"]

/-- Embedding of `IgraSlov::parse_authors` (src/igraslov.rs lines 55-67):
identical collection logic to Labirint; never an error. -/
def igraParseAuthors (ctx : PageCtx) : Except AErr (List (List Char)) :=
  .ok (ctx.authorNodes.map normNew)

/-- Embedding of `IgraSlov::parse_title` (src/igraslov.rs lines 92-106):
concatenate selector hits, drop one leading underscore, trim; never an
error. -/
def igraParseTitle (ctx : PageCtx) : Except AErr (List Char) :=
  let t := ctx.titleNodes.flatten
  let t2 := match t with
    | c :: rest => if c = '_' then rest else c :: rest
    | [] => t
  .ok (normNew t2)

/-- Embedding of `IgraSlov::parse_isbn` (src/igraslov.rs lines 69-89): like
Labirint but the validation failure is replaced by a fresh message (source
apostrophes elided). -/
def igraParseIsbn (ctx : PageCtx) : Except AErr (List Char) :=
  match ctx.isbnNodes.getLast? with
  | some t =>
    match Isbn.tryFrom (t.filter (fun c => c ≠ '\u00A0')) with
    | .ok isbn => .ok isbn
    | .error _ => .error [str "cant parse isbn"]
  | none => .error [str "cant find isbn on this page"]

/-- The Labirint capability for one URL, assembled from the per-field
embeddings; `fetchRes` is the outcome of `fetch`. -/
def labirintCap (fetchRes : Except AErr PageCtx) (url : List Char) : Cap PageCtx :=
  ⟨fetchRes, labParseAuthors, labParseTitle, fun ctx => labParseIsbn ctx url⟩

/-- `LabirintParser::parse_book` applied to the Labirint capability. -/
def labirintParseBook (fetchRes : Except AErr PageCtx) (url : List Char) :
    Except AErr BookOut :=
  parseBookLabirintG (labirintCap fetchRes url) url .labirint

/-- The IgraSlov capability for one URL; IgraSlov uses the trait default
`parse_book`. -/
def igraCap (fetchRes : Except AErr PageCtx) : Cap PageCtx :=
  ⟨fetchRes, igraParseAuthors, igraParseTitle, igraParseIsbn⟩

/-- The default `parse_book` applied to the IgraSlov capability. -/
def igraParseBook (fetchRes : Except AErr PageCtx) (url : List Char) :
    Except AErr BookOut :=
  parseBookDefault (igraCap fetchRes) url .igraSlov

/-- Per-URL failure in the scheduler loop (src/main.rs lines 214-234): either
a propagated parse error or the unknown-bookstore-domain error of line 223. -/
inductive RunErr where
  | bookErr (e : AErr)
  | unknownSource (url : List Char)

/-- Embedding of the dispatch closure of src/main.rs lines 218-224: pick the
capability by URL substring, or fail with the unknown-source error before any
capability (hence any fetch) is invoked.  `lab` and `igra` stand for the two
parse-book capabilities applied to one URL. -/
def dispatchParse (lab igra : List Char → Except AErr BookOut) (url : List Char) :
    Except RunErr BookOut :=
  if containsSub url (str "labirint") then
    match lab url with
    | .ok b => .ok b
    | .error e => .error (.bookErr e)
  else if containsSub url (str "igraslov") then
    match igra url with
    | .ok b => .ok b
    | .error e => .error (.bookErr e)
  else .error (.unknownSource url)

/-- Embedding of the result-processing loop of src/main.rs lines 240-253:
count successes and failures; failures are only counted, never re-raised. -/
def tallyResults (rs : List (Except RunErr BookOut)) : Nat × Nat :=
  rs.foldl
    (fun acc r => match r with
      | .ok _ => (acc.1 + 1, acc.2)
      | .error _ => (acc.1, acc.2 + 1))
    (0, 0)

/-- Embedding of the scheduler stream of src/main.rs lines 214-234: every URL
is dispatched and its result collected; no URL aborts the run. -/
def runAll (lab igra : List Char → Except AErr BookOut) (urls : List (List Char)) :
    List (Except RunErr BookOut) :=
  urls.map (dispatchParse lab igra)

/-! Helper lemmas. -/

theorem containsSub_cons_false {c : Char} {a needle : List Char}
    (h : containsSub (c :: a) needle = false) :
    needle.isPrefixOf (c :: a) = false ∧ containsSub a needle = false := by
  simpa [containsSub] using h

theorem tally_foldl (rs : List (Except RunErr BookOut)) (a b : Nat) :
    ((rs.foldl
      (fun acc r => match r with
        | .ok _ => (acc.1 + 1, acc.2)
        | .error _ => (acc.1, acc.2 + 1))
      (a, b)).1 +
     (rs.foldl
      (fun acc r => match r with
        | .ok _ => (acc.1 + 1, acc.2)
        | .error _ => (acc.1, acc.2 + 1))
      (a, b)).2) = a + b + rs.length := by
  induction rs generalizing a b with
  | nil => simp
  | cons r rs ih =>
    cases r with
    | ok v => simpa [List.foldl] using (by omega : a + 1 + b + rs.length = a + b + (rs.length + 1)) ▸ ih (a + 1) b
    | error e => simpa [List.foldl] using (by omega : a + (b + 1) + rs.length = a + b + (rs.length + 1)) ▸ ih a (b + 1)

theorem splitSemiSpace_no_sep (a : List Char)
    (h : containsSub a (str "; ") = false) : splitSemiSpace a = [a] := by
  induction a with
  | nil => rfl
  | cons c t ih =>
    obtain ⟨hpre, htail⟩ := containsSub_cons_false h
    cases t with
    | nil => rfl
    | cons d rest =>
      have hcd : ¬(c = ';' ∧ d = ' ') := by
        intro ⟨hc, hd⟩
        subst hc; subst hd
        simp [List.isPrefixOf, str] at hpre
      rw [splitSemiSpace, if_neg hcd, ih htail]
      rfl

theorem splitSemiSpace_append (a : List Char) (s : List Char)
    (h : containsSub a (str "; ") = false) :
    splitSemiSpace (a ++ ';' :: ' ' :: s) = a :: splitSemiSpace s := by
  induction a with
  | nil =>
    show splitSemiSpace (';' :: ' ' :: s) = [] :: splitSemiSpace s
    simp only [splitSemiSpace]
    rw [if_pos (by simp)]
  | cons c t ih =>
    obtain ⟨hpre, htail⟩ := containsSub_cons_false h
    cases t with
    | nil =>
      show splitSemiSpace (c :: ';' :: ' ' :: s) = [c] :: splitSemiSpace s
      simp only [splitSemiSpace]
      rw [if_neg (by simp : ¬(c = ';' ∧ (';' : Char) = ' ')), if_pos (by simp)]
      rfl
    | cons d rest =>
      have hcd : ¬(c = ';' ∧ d = ' ') := by
        intro ⟨hc, hd⟩
        subst hc; subst hd
        simp [List.isPrefixOf, str] at hpre
      show splitSemiSpace (c :: d :: (rest ++ ';' :: ' ' :: s)) =
        (c :: d :: rest) :: splitSemiSpace s
      rw [splitSemiSpace, if_neg hcd]
      have h2 : splitSemiSpace ((d :: rest) ++ ';' :: ' ' :: s) =
          (d :: rest) :: splitSemiSpace s := ih htail
      simp only [List.cons_append] at h2
      rw [h2]
      rfl

theorem split_join_authors (l : List (List Char)) (hne : l ≠ [])
    (h : ∀ a ∈ l, containsSub a (str "; ") = false) :
    splitSemiSpace (joinAuthors l) = l := by
  induction l with
  | nil => exact absurd rfl hne
  | cons a t ih =>
    cases t with
    | nil =>
      show splitSemiSpace (joinAuthors [a]) = [a]
      rw [joinAuthors]
      exact splitSemiSpace_no_sep a (h a (by simp))
    | cons b t2 =>
      show splitSemiSpace (joinAuthors (a :: b :: t2)) = a :: b :: t2
      rw [joinAuthors, splitSemiSpace_append a _ (h a (by simp)),
        ih (by simp) (fun x hx => h x (by simp [hx]))]

/-! Claim theorems. -/

/-- C10: for every URL string that does not contain the substring books, the
Labirint fetch returns an error before making any HTTP attempt: the result is
the not-a-book-URL error, the recorded wait list is empty, and the conclusion
holds for every mocked transport and retry bound, so no request is
observed. -/
theorem c10_nonbook_url (url : List Char) (respAt : Nat → AttemptOut) (maxR : Nat)
    (h : containsSub url (str "books") = false) :
    labirintFetch url respAt maxR = (.error .notBookUrl, []) := by
  unfold labirintFetch
  rw [h]
  rfl

/-- Witness for C10 at a concrete non-book URL. -/
theorem c10_nonbook_url_wit :
    labirintFetch (str "https://www.labirint.ru/invalid/")
      (fun _ => .resp ⟨200, none, str "page"⟩) MAX_RETRIES
      = (.error .notBookUrl, []) :=
  c10_nonbook_url _ _ _ (by decide)

/-- C6: a fetch whose first attempt receives a non-429, non-5xx, non-success
status fails immediately with that status: no sleep is recorded and the
result does not depend on what the transport would return on any later
attempt, so exactly one request is made. -/
theorem c6_terminal_4xx (url : List Char) (respAt : Nat → AttemptOut) (maxR : Nat)
    (r : HttpResp)
    (hurl : containsSub url (str "books") = true)
    (h0 : respAt 0 = .resp r)
    (hn2 : is2xx r.code = false)
    (hnr : retryableStatus r.code = false) :
    labirintFetch url respAt maxR = (.error (.httpStatus r.code), []) := by
  unfold labirintFetch
  rw [hurl]
  show fetchAux respAt maxR (maxR + 1) 0 none none [] = _
  rw [fetchAux, h0]
  simp [hn2, hnr]

/-- Witness for C6: a mocked 404 gives one attempt, no waits. -/
theorem c6_terminal_4xx_wit :
    labirintFetch (str "https://www.labirint.ru/books/1/")
      (fun _ => .resp ⟨404, none, str "not found"⟩) MAX_RETRIES
      = (.error (.httpStatus 404), []) :=
  c6_terminal_4xx _ _ _ ⟨404, none, str "not found"⟩ (by decide) rfl (by decide) (by decide)

/-- C5: with at least one retry remaining, a first-attempt 429 or 5xx response
causes exactly one backoff wait equal to the Retry-After value when the
response supplies one and min(2 to the attempt, 8) otherwise, after which the
second attempt returns the 200 body. -/
theorem c5_retry_backoff (url : List Char) (respAt : Nat → AttemptOut) (maxR : Nat)
    (r0 r1 : HttpResp)
    (hurl : containsSub url (str "books") = true)
    (h0 : respAt 0 = .resp r0)
    (hn2 : is2xx r0.code = false)
    (hretry : retryableStatus r0.code = true)
    (h1 : respAt 1 = .resp r1)
    (hok : is2xx r1.code = true)
    (hmax : 1 ≤ maxR) :
    labirintFetch url respAt maxR =
      (.ok r1.body, [r0.retryAfter.getD (min (2 ^ 0) 8)]) := by
  obtain ⟨k, rfl⟩ : ∃ k, maxR = k + 1 := ⟨maxR - 1, by omega⟩
  unfold labirintFetch
  rw [hurl]
  show fetchAux respAt (k + 1) (k + 1 + 1) 0 none none [] = _
  rw [fetchAux, h0]
  simp only [hn2, Bool.false_eq_true, if_false]
  rw [if_pos ⟨by simp [hretry], by omega⟩]
  rw [fetchAux, h1]
  simp [hok]

/-- Witness for C5: mocked sequence 429 then 200, Retry-After absent, with the
source constant MAX_RETRIES = 1; the engine sleeps 1 second and returns the
200 body. -/
theorem c5_retry_backoff_wit :
    labirintFetch (str "https://www.labirint.ru/books/1/")
      (fun n => if n = 0 then .resp ⟨429, none, str "slow down"⟩
                else .resp ⟨200, none, str "page"⟩) MAX_RETRIES
      = (.ok (str "page"), [Option.none.getD (min (2 ^ 0) 8)]) :=
  c5_retry_backoff _ _ _ ⟨429, none, str "slow down"⟩ ⟨200, none, str "page"⟩
    (by decide) rfl (by decide) (by decide) rfl (by decide) (by decide)

/-- C2 counterexample: on the raw input of the claim, extraction returns the
token 979-0000000000, not 978-0-13-468599-1 as the claim states, because the
first token already has 13 digits. -/
theorem c2_cex :
    Isbn.parse (str "979-0000000000, 978-0-13-468599-1") = .ok (str "979-0000000000") ∧
    str "979-0000000000" ≠ str "978-0-13-468599-1" :=
  ⟨by rfl, by decide⟩

/-- C2 amended: both tokens of the input contain exactly 13 digits, so
extraction returns whichever 13-digit token comes first: the selection
depends on token order instead of being order-independent. -/
theorem c2_amended :
    Isbn.isDigit13 (str "979-0000000000") = true ∧
    Isbn.isDigit13 (str "978-0-13-468599-1") = true ∧
    Isbn.parse (str "979-0000000000, 978-0-13-468599-1") = .ok (str "979-0000000000") ∧
    Isbn.parse (str "978-0-13-468599-1, 979-0000000000") = .ok (str "978-0-13-468599-1") :=
  ⟨by decide, by decide, by rfl, by rfl⟩

/-- C7: a URL containing neither the labirint nor the igraslov substring is
dispatched to the unknown-source error without invoking either capability
(the conclusion holds for every pair of capabilities, so no fetch can be
observed), and the run always tallies every URL: successes plus failures
equal the number of URLs, so no single failure aborts the run. -/
theorem c7_unknown_source (lab igra : List Char → Except AErr BookOut) :
    (∀ url, containsSub url (str "labirint") = false →
      containsSub url (str "igraslov") = false →
      dispatchParse lab igra url = .error (.unknownSource url)) ∧
    (∀ urls, (tallyResults (runAll lab igra urls)).1 +
      (tallyResults (runAll lab igra urls)).2 = urls.length) := by
  constructor
  · intro url h1 h2
    unfold dispatchParse
    rw [h1, h2]
    rfl
  · intro urls
    unfold tallyResults runAll
    simpa using tally_foldl (urls.map (dispatchParse lab igra)) 0 0

/-- Witness for C7 at a concrete unknown-source URL and a concrete URL list
with one unknown host among three. -/
theorem c7_unknown_source_wit :
    (dispatchParse (fun u => .ok ⟨[], str "1234567890", u, [], .labirint⟩)
        (fun _ => .error [str "boom"]) (str "https://example.com/books/1/")
      = .error (.unknownSource (str "https://example.com/books/1/"))) ∧
    ((tallyResults (runAll (fun u => .ok ⟨[], str "1234567890", u, [], .labirint⟩)
        (fun _ => .error [str "boom"])
        [str "https://www.labirint.ru/books/1/",
         str "https://example.com/books/1/",
         str "https://igraslov.store/product/x/"])).1 +
     (tallyResults (runAll (fun u => .ok ⟨[], str "1234567890", u, [], .labirint⟩)
        (fun _ => .error [str "boom"])
        [str "https://www.labirint.ru/books/1/",
         str "https://example.com/books/1/",
         str "https://igraslov.store/product/x/"])).2 = 3) :=
  ⟨(c7_unknown_source _ _).1 _ (by decide) (by decide),
   (c7_unknown_source _ _).2 _⟩

/-- C8 counterexample: an author name containing the separator breaks the
round trip.  A record with the single author A-semicolon-space-B writes an
authors column that re-splits into two authors, not the original list. -/
theorem c8_cex :
    writeCsvRecord ⟨[str "A; B"], str "9781234567897",
        str "https://igraslov.store/product/x/", str "T", .igraSlov⟩ =
      [str "igra_slov", str "https://igraslov.store/product/x/",
       str "9781234567897", str "T", str "A; B"] ∧
    splitSemiSpace (str "A; B") = [str "A", str "B"] ∧
    [str "A", str "B"] ≠ [str "A; B"] :=
  ⟨by rfl, by decide, by decide⟩

/-- C8 amended: the authors column is always the author list joined with the
semicolon-space separator, and re-splitting the column reproduces the
original list whenever the list is non-empty and no author name itself
contains the separator (as with the authors A. One and B. Two). -/
theorem c8_amended (b : BookOut)
    (hne : b.authors ≠ [])
    (hsep : ∀ a ∈ b.authors, containsSub a (str "; ") = false) :
    (writeCsvRecord b).getLast? = some (joinAuthors b.authors) ∧
    splitSemiSpace (joinAuthors b.authors) = b.authors :=
  ⟨by rfl, split_join_authors b.authors hne hsep⟩

/-- Witness for C8 with the authors of the claim: the joined column is
A. One-semicolon-space-B. Two and re-splitting returns the two authors. -/
theorem c8_amended_wit :
    joinAuthors [str "A. One", str "B. Two"] = str "A. One; B. Two" ∧
    splitSemiSpace (joinAuthors [str "A. One", str "B. Two"]) =
      [str "A. One", str "B. Two"] :=
  ⟨by decide,
   (c8_amended ⟨[str "A. One", str "B. Two"], str "9781234567897",
      str "https://www.labirint.ru/books/1/", str "T", .labirint⟩
      (by decide) (by decide)).2⟩

/-- C1 counterexample: validation accepts the 11-digit input 12345678901 even
though its stripped digit count is outside the set of 10 and 13, and it
accepts a 10-digit input led by a tab even though stripping only dash and
space leaves a non-digit character, so the claimed iff fails in both
directions of its success condition. -/
theorem c1_cex :
    (Isbn.new (str "12345678901")).isOk = true ∧
    ((str "12345678901").filter (fun c => ¬(c = '-' ∨ c = ' '))).length = 11 ∧
    (Isbn.new (str "\t1234567890")).isOk = true ∧
    ((str "\t1234567890").filter (fun c => ¬(c = '-' ∨ c = ' '))).all Char.isDigit = false :=
  ⟨by decide, by decide, by decide, by decide⟩

/-- C1 amended: validation succeeds if and only if, after trimming surrounding
white space and removing every dash and space, the remaining characters are
all ASCII digits and number between 10 and 13 inclusive; on success the
stored value returned by as_str is the original unstripped text. -/
theorem c1_validate (s : List Char) :
    ((Isbn.new s).isOk = true ↔
      ((Isbn.clean s).all Char.isDigit = true ∧
        10 ≤ (Isbn.clean s).length ∧ (Isbn.clean s).length ≤ 13)) ∧
    (∀ t, Isbn.new s = .ok t → t = s) := by
  have heq : Isbn.new s =
      if (10 ≤ ((Isbn.clean s).filter Char.isDigit).length ∧
            ((Isbn.clean s).filter Char.isDigit).length ≤ 13) ∧
          (Isbn.clean s).all Char.isDigit then
        Except.ok s
      else Except.error [str "Invalid ISBN format. Expected 10-13 digits"] := rfl
  constructor
  · rw [heq]
    by_cases hall : (Isbn.clean s).all Char.isDigit = true
    · have hfilter : (Isbn.clean s).filter Char.isDigit = Isbn.clean s := by
        rw [List.filter_eq_self]
        intro a ha
        exact List.all_eq_true.mp hall a ha
      rw [hfilter]
      by_cases hlen : 10 ≤ (Isbn.clean s).length ∧ (Isbn.clean s).length ≤ 13
      · rw [if_pos ⟨hlen, by simp [hall]⟩]
        simp [Except.isOk, Except.toBool, hall, hlen.1, hlen.2]
      · rw [if_neg (fun hc => hlen hc.1)]
        simp only [Except.isOk, Except.toBool, Bool.false_eq_true, false_iff]
        intro hc
        exact hlen ⟨hc.2.1, hc.2.2⟩
    · rw [if_neg (fun hc => hall (by simpa using hc.2))]
      simp only [Except.isOk, Except.toBool, Bool.false_eq_true, false_iff]
      intro hc
      exact hall hc.1
  · intro t ht
    rw [heq] at ht
    by_cases hc : (10 ≤ ((Isbn.clean s).filter Char.isDigit).length ∧
        ((Isbn.clean s).filter Char.isDigit).length ≤ 13) ∧
        (Isbn.clean s).all Char.isDigit
    · rw [if_pos hc] at ht
      cases ht
      rfl
    · rw [if_neg hc] at ht
      cases ht

/-- Witness for C1 amended at two concrete inputs: a hyphenated 13-digit ISBN
validates and is stored unchanged, and a 9-digit input fails. -/
theorem c1_validate_wit :
    (Isbn.new (str "978-0-13-468599-1")).isOk = true ∧
    str "978-0-13-468599-1" = str "978-0-13-468599-1" ∧
    (Isbn.new (str "123456789")).isOk ≠ true :=
  ⟨(c1_validate (str "978-0-13-468599-1")).1.mpr (by decide),
   (c1_validate (str "978-0-13-468599-1")).2 _ (by rfl),
   fun h => by
    have := (c1_validate (str "123456789")).1.mp h
    exact absurd this.2.1 (by decide)⟩

/-- C3: extraction splits on comma and semicolon, trims, drops empty tokens,
fails when no token remains, otherwise returns the first token with exactly
13 digits, falling back to the last token; try_from passes the chosen token
to validation and propagates extraction errors. -/
theorem c3_extract_pipeline (raw : List Char) :
    ((((splitCommaSemi raw).map rustTrim).filter (fun s => !s.isEmpty)) = [] →
      Isbn.parse raw = .error [str "No ISBN detected in input"]) ∧
    (∀ t, (((splitCommaSemi raw).map rustTrim).filter
        (fun s => !s.isEmpty)).find? Isbn.isDigit13 = some t →
      Isbn.parse raw = .ok t) ∧
    ((((splitCommaSemi raw).map rustTrim).filter
        (fun s => !s.isEmpty)).find? Isbn.isDigit13 = none →
      ∀ t, (((splitCommaSemi raw).map rustTrim).filter
        (fun s => !s.isEmpty)).getLast? = some t →
      Isbn.parse raw = .ok t) ∧
    (∀ t, Isbn.parse raw = .ok t → Isbn.tryFrom raw = Isbn.new t) ∧
    (∀ e, Isbn.parse raw = .error e → Isbn.tryFrom raw = .error e) := by
  have heq : Isbn.parse raw =
      (if (((splitCommaSemi raw).map rustTrim).filter (fun s => !s.isEmpty)).isEmpty then
        .error [str "No ISBN detected in input"]
      else
        match (((splitCommaSemi raw).map rustTrim).filter
            (fun s => !s.isEmpty)).find? Isbn.isDigit13 with
        | some isbn13 => .ok isbn13
        | none =>
          match (((splitCommaSemi raw).map rustTrim).filter
              (fun s => !s.isEmpty)).getLast? with
          | some t => .ok t
          | none => .error [str "Failed to extract ISBN from tokens"]) := rfl
  refine ⟨?_, ?_, ?_, ?_, ?_⟩
  · intro h
    rw [heq, if_pos (by simp [h])]
  · intro t h
    have hne : (((splitCommaSemi raw).map rustTrim).filter
        (fun s => !s.isEmpty)).isEmpty = false := by
      cases hcase : (((splitCommaSemi raw).map rustTrim).filter (fun s => !s.isEmpty)) with
      | nil => rw [hcase] at h; simp at h
      | cons x xs => simp [hcase]
    rw [heq, if_neg (by simp [hne]), h]
  · intro hfind t hlast
    have hne : (((splitCommaSemi raw).map rustTrim).filter
        (fun s => !s.isEmpty)).isEmpty = false := by
      cases hcase : (((splitCommaSemi raw).map rustTrim).filter (fun s => !s.isEmpty)) with
      | nil => rw [hcase] at hlast; simp at hlast
      | cons x xs => simp [hcase]
    rw [heq, if_neg (by simp [hne]), hfind, hlast]
  · intro t h
    unfold Isbn.tryFrom
    rw [h]
  · intro e h
    unfold Isbn.tryFrom
    rw [h]

/-- Witness for C3 on a concrete raw string with an empty token, a 10-digit
token and a 13-digit token: the 13-digit token wins and try_from validates
it. -/
theorem c3_extract_pipeline_wit :
    Isbn.parse (str " 0306406152, ,9781234567897") = .ok (str "9781234567897") ∧
    Isbn.tryFrom (str " 0306406152, ,9781234567897") = Isbn.new (str "9781234567897") :=
  ⟨(c3_extract_pipeline (str " 0306406152, ,9781234567897")).2.1 _ (by rfl),
   (c3_extract_pipeline (str " 0306406152, ,9781234567897")).2.2.2.1 _
     ((c3_extract_pipeline (str " 0306406152, ,9781234567897")).2.1 _ (by rfl))⟩

/-- C4 counterexample: errors escaping the record orchestration are not
annotated with the field name and the URL.  The trait default parse_book
propagates a failing authors parser error verbatim, with no frame containing
the field name or the URL; Labirint parse_book on a page without an ISBN
element returns frames naming the field but never containing the URL. -/
theorem c4_cex :
    parseBookDefault
      ⟨Except.ok PUnit.unit, fun _ => .error [str "boom"],
       fun _ => .ok (str "T"), fun _ => .ok (str "9781234567897")⟩
      (str "https://igraslov.store/product/x/") .igraSlov
      = .error [str "boom"] ∧
    containsSub (str "boom") (str "authors") = false ∧
    containsSub (str "boom") (str "https://igraslov.store/product/x/") = false ∧
    labirintParseBook (.ok ⟨[], [], []⟩) (str "https://www.labirint.ru/books/1/") =
      .error [str "Failed to parse ISBN", str "ISBN element not found on page"] ∧
    containsSub (str "Failed to parse ISBN")
      (str "https://www.labirint.ru/books/1/") = false ∧
    containsSub (str "ISBN element not found on page")
      (str "https://www.labirint.ru/books/1/") = false :=
  ⟨by rfl, by decide, by decide, by rfl, by decide, by decide⟩

/-- C4 amended: for any capability, record orchestration first consults fetch,
then the field parsers in the fixed order authors, title, isbn, stopping at
the first failure; the failing step determines the result regardless of the
later parsers; only when all steps succeed is the record assembled.  The
trait default propagates the failing error unchanged, while the Labirint
override wraps it in a context frame naming the failing stage (but not the
URL). -/
theorem c4_orchestration {Ctx : Type} (f : Except AErr Ctx)
    (pa : Ctx → Except AErr (List (List Char)))
    (pt : Ctx → Except AErr (List Char)) (pi : Ctx → Except AErr (List Char))
    (url : List Char) (site : Sites) :
    (∀ e, f = .error e →
      parseBookDefault ⟨f, pa, pt, pi⟩ url site = .error e ∧
      parseBookLabirintG ⟨f, pa, pt, pi⟩ url site =
        .error (str "Failed to fetch page" :: e)) ∧
    (∀ ctx e, f = .ok ctx → pa ctx = .error e →
      parseBookDefault ⟨f, pa, pt, pi⟩ url site = .error e ∧
      parseBookLabirintG ⟨f, pa, pt, pi⟩ url site =
        .error (str "Failed to parse authors" :: e)) ∧
    (∀ ctx as e, f = .ok ctx → pa ctx = .ok as → pt ctx = .error e →
      parseBookDefault ⟨f, pa, pt, pi⟩ url site = .error e ∧
      parseBookLabirintG ⟨f, pa, pt, pi⟩ url site =
        .error (str "Failed to parse title" :: e)) ∧
    (∀ ctx as t e, f = .ok ctx → pa ctx = .ok as → pt ctx = .ok t →
      pi ctx = .error e →
      parseBookDefault ⟨f, pa, pt, pi⟩ url site = .error e ∧
      parseBookLabirintG ⟨f, pa, pt, pi⟩ url site =
        .error (str "Failed to parse ISBN" :: e)) ∧
    (∀ ctx as t i, f = .ok ctx → pa ctx = .ok as → pt ctx = .ok t →
      pi ctx = .ok i →
      parseBookDefault ⟨f, pa, pt, pi⟩ url site = .ok ⟨as, i, url, t, site⟩ ∧
      parseBookLabirintG ⟨f, pa, pt, pi⟩ url site = .ok ⟨as, i, url, t, site⟩) := by
  refine ⟨?_, ?_, ?_, ?_, ?_⟩
  · intro e hf
    subst hf
    exact ⟨rfl, rfl⟩
  · intro ctx e hf hpa
    subst hf
    constructor <;> simp [parseBookDefault, parseBookLabirintG, withCtx, hpa]
  · intro ctx as e hf hpa hpt
    subst hf
    constructor <;> simp [parseBookDefault, parseBookLabirintG, withCtx, hpa, hpt]
  · intro ctx as t e hf hpa hpt hpi
    subst hf
    constructor <;> simp [parseBookDefault, parseBookLabirintG, withCtx, hpa, hpt, hpi]
  · intro ctx as t i hf hpa hpt hpi
    subst hf
    constructor <;> simp [parseBookDefault, parseBookLabirintG, withCtx, hpa, hpt, hpi]

/-- Witness for C4 amended at a concrete capability whose title parser fails:
the default orchestration returns the title error unchanged and the Labirint
orchestration adds the stage frame. -/
theorem c4_orchestration_wit :
    parseBookDefault
      ⟨Except.ok PUnit.unit, fun _ => .ok [str "A"],
       fun _ => .error [str "no title"], fun _ => .ok (str "9781234567897")⟩
      (str "https://www.labirint.ru/books/1/") .labirint = .error [str "no title"] ∧
    parseBookLabirintG
      ⟨Except.ok PUnit.unit, fun _ => .ok [str "A"],
       fun _ => .error [str "no title"], fun _ => .ok (str "9781234567897")⟩
      (str "https://www.labirint.ru/books/1/") .labirint =
      .error [str "Failed to parse title", str "no title"] :=
  (c4_orchestration (Except.ok PUnit.unit) (fun _ => .ok [str "A"])
    (fun _ => .error [str "no title"]) (fun _ => .ok (str "9781234567897"))
    (str "https://www.labirint.ru/books/1/") .labirint).2.2.1
    PUnit.unit [str "A"] [str "no title"] rfl rfl rfl

/-- C9: for both site parsers and every page context, parse_authors and
parse_title always succeed (with possibly empty results), so fetch and
parse_isbn are the only failure points of record construction: whenever fetch
and parse_isbn succeed the whole record succeeds, and a record with zero
authors and an empty title is constructible. -/
theorem c9_infallible_fields (ctx : PageCtx) (fetchRes : Except AErr PageCtx)
    (url : List Char) :
    (labParseAuthors ctx).isOk = true ∧
    (labParseTitle ctx).isOk = true ∧
    (igraParseAuthors ctx).isOk = true ∧
    (igraParseTitle ctx).isOk = true ∧
    (∀ c, fetchRes = .ok c → (labParseIsbn c url).isOk = true →
      (labirintParseBook fetchRes url).isOk = true) ∧
    (∀ c, fetchRes = .ok c → (igraParseIsbn c).isOk = true →
      (igraParseBook fetchRes url).isOk = true) ∧
    labirintParseBook (.ok ⟨[], [str "978-5-17-123456-7"], []⟩) url =
      .ok ⟨[], str "978-5-17-123456-7", url, [], .labirint⟩ := by
  refine ⟨rfl, rfl, rfl, rfl, ?_, ?_, ?_⟩
  · intro c hf hisbn
    subst hf
    cases hcase : labParseIsbn c url with
    | ok v =>
      simp [labirintParseBook, parseBookLabirintG, labirintCap, withCtx,
        labParseAuthors, labParseTitle, hcase, Except.isOk, Except.toBool]
    | error e =>
      rw [hcase] at hisbn
      simp [Except.isOk, Except.toBool] at hisbn
  · intro c hf hisbn
    subst hf
    cases hcase : igraParseIsbn c with
    | ok v =>
      simp [igraParseBook, parseBookDefault, igraCap,
        igraParseAuthors, igraParseTitle, hcase, Except.isOk, Except.toBool]
    | error e =>
      rw [hcase] at hisbn
      simp [Except.isOk, Except.toBool] at hisbn
  · rfl

/-- Witness for C9 at a concrete context with no author and no title node:
the parsers succeed with an empty author list and an empty title, and the
full Labirint record succeeds given its valid ISBN node. -/
theorem c9_infallible_fields_wit :
    (labParseAuthors ⟨[], [str "978-5-17-123456-7"], []⟩).isOk = true ∧
    (labirintParseBook (.ok ⟨[], [str "978-5-17-123456-7"], []⟩)
      (str "https://www.labirint.ru/books/123456/")).isOk = true :=
  ⟨(c9_infallible_fields ⟨[], [str "978-5-17-123456-7"], []⟩
      (.ok ⟨[], [str "978-5-17-123456-7"], []⟩)
      (str "https://www.labirint.ru/books/123456/")).1,
   (c9_infallible_fields ⟨[], [str "978-5-17-123456-7"], []⟩
      (.ok ⟨[], [str "978-5-17-123456-7"], []⟩)
      (str "https://www.labirint.ru/books/123456/")).2.2.2.2.1
      ⟨[], [str "978-5-17-123456-7"], []⟩ rfl (by rfl)⟩
